import Mathlib

/-!
Shallow embedding of `voco/base/base_trainer.py` (class `BaseTrainer`):
the epoch loop with metric monitoring and early stopping
(`_train_process`), checkpoint persistence (`_save_checkpoint`),
interrupt handling (`train`) and checkpoint restoration
(`_resume_checkpoint`).

Modelling conventions:
* metric values are rationals (the Python code compares floats with
  `<=` / `>=`; the claims only involve ordinary finite values);
* `XVal` adjoins `+inf` / `-inf` to the rationals, matching the
  initialisation `mnt_best = inf` (mode `"min"`) / `-inf` (mode `"max"`);
* opaque serialized blobs (`state_dict`s of the networks, optimizers and
  schedulers) and the configuration entries compared with `==` / `!=`
  are modelled as natural numbers — only their identity matters;
* `hasattr(self, 'g_lr_scheduler')` is modelled by an `Option` field;
* the abstract hook `_train_epoch` is a function from the epoch number
  to `Option (List (String × ℚ))`, where `none` models a
  `KeyboardInterrupt` raised during that epoch and `some log` the
  returned result mapping;
* fallible resume code returns `Except String TrainerState`
  (`AttributeError` / `KeyError` paths).
-/

/-- Monitor mode: `self.mnt_mode ∈ {"off", "min", "max"}`. -/
inductive Mode where
  | off : Mode
  | min : Mode
  | max : Mode
deriving DecidableEq, Repr

/-- A metric value extended with the two infinities, as used for
`self.mnt_best` (`inf` in "min" mode, `-inf` in "max" mode, `0` when
monitoring is off). -/
inductive XVal where
  | negInf : XVal
  | fin : ℚ → XVal
  | posInf : XVal
deriving DecidableEq, Repr

/-- The comparison `value <= self.mnt_best` from the "min" branch. -/
def qLeX (v : ℚ) (b : XVal) : Bool :=
  match b with
  | XVal.negInf => false
  | XVal.fin q => decide (v ≤ q)
  | XVal.posInf => true

/-- The comparison `value >= self.mnt_best` from the "max" branch. -/
def qGeX (v : ℚ) (b : XVal) : Bool :=
  match b with
  | XVal.negInf => true
  | XVal.fin q => decide (q ≤ v)
  | XVal.posInf => false

/-- The configuration entries that `_resume_checkpoint` compares between
the current config and the checkpointed config.  Each entry is opaque;
only equality of entries matters. -/
structure Config where
  generator : Nat
  discriminator : Nat
  g_optimizer : Nat
  d_optimizer : Nat
  g_lr_scheduler : Nat
  d_lr_scheduler : Nat
deriving DecidableEq, Repr

/-- Models `self.early_stop = cfg_trainer.get("early_stop", inf)` followed by
`if self.early_stop <= 0: self.early_stop = inf`.  `none` models the
float `inf` (absent key or non-positive configured patience). -/
def normEarlyStop : Option Int → Option Nat
  | none => none
  | some e => if e ≤ 0 then none else some e.toNat

/-- The mutable attributes of a `BaseTrainer` instance that the
claims are about (the loop-local `not_improved_count` is deliberately
not an attribute, mirroring the Python code). -/
structure TrainerState where
  start_epoch : Nat
  epochs : Nat
  save_period : Nat
  mnt_mode : Mode
  mnt_metric : String
  mnt_best : XVal
  early_stop : Option Nat
  last_epoch : Nat
  checkpoint_dir : String
  g_arch : String
  d_arch : String
  generator : Nat
  discriminator : Nat
  g_optimizer : Nat
  d_optimizer : Nat
  g_lr_scheduler : Option Nat
  d_lr_scheduler : Option Nat
  config : Config
deriving DecidableEq, Repr

/-- The serialized record built by `_save_checkpoint` (`state` dict).
The scheduler keys are present exactly when the corresponding attribute
exists (`hasattr`). -/
structure Checkpoint where
  g_arch : String
  d_arch : String
  epoch : Nat
  generator_state_dict : Nat
  discriminator_state_dict : Nat
  g_optimizer : Nat
  d_optimizer : Nat
  g_lr_scheduler : Option Nat
  d_lr_scheduler : Option Nat
  monitor_best : XVal
  config : Config
deriving DecidableEq, Repr

/-- Models `BaseTrainer._save_checkpoint(self, epoch, save_best, only_best)`:
returns the serialized record and the destination filename
`str(self.checkpoint_dir / "checkpoint-epoch<N>.pth")`.  The two flags
are accepted (as in the source) but never read by the body. -/
def save_checkpoint (t : TrainerState) (epoch : Nat)
    (save_best only_best : Bool) : Checkpoint × String :=
  ({ g_arch := t.g_arch
     d_arch := t.d_arch
     epoch := epoch
     generator_state_dict := t.generator
     discriminator_state_dict := t.discriminator
     g_optimizer := t.g_optimizer
     d_optimizer := t.d_optimizer
     g_lr_scheduler := t.g_lr_scheduler
     d_lr_scheduler := t.d_lr_scheduler
     monitor_best := t.mnt_best
     config := t.config },
   t.checkpoint_dir ++ "/checkpoint-epoch" ++ toString epoch ++ ".pth")

/-- The check `if not_improved_count > self.early_stop` (with
`early_stop = inf` represented by `none`, so the check is never true). -/
def stopFlag : Option Nat → Nat → Bool
  | none, _ => false
  | some p, c => decide (c > p)

/-- The outcome of the monitoring block of one loop iteration
(`_train_process`, the `if self.mnt_mode != "off"` block): the possibly
updated trainer attributes, the new value of the local
`not_improved_count`, the `best` flag, and whether `break` is taken. -/
structure MonitorOutcome where
  tr : TrainerState
  not_improved_count : Nat
  best : Bool
  stop : Bool
deriving DecidableEq, Repr

/-- One execution of the monitoring block of `_train_process` on the
epoch's log: improvement test (`<=` in "min" mode, `>=` in "max" mode),
missing-key handling (warning + `self.mnt_mode = "off"` + not
improved), best/counter update and the early-stop check. -/
def monitorStep (t : TrainerState) (not_improved_count : Nat)
    (log : List (String × ℚ)) : MonitorOutcome :=
  if t.mnt_mode = Mode.off then
    { tr := t, not_improved_count := not_improved_count,
      best := false, stop := false }
  else
    match log.lookup t.mnt_metric with
    | some value =>
        let improved : Bool :=
          match t.mnt_mode with
          | Mode.min => qLeX value t.mnt_best
          | Mode.max => qGeX value t.mnt_best
          | Mode.off => false
        if improved then
          { tr := { t with mnt_best := XVal.fin value },
            not_improved_count := 0, best := true,
            stop := stopFlag t.early_stop 0 }
        else
          { tr := t, not_improved_count := not_improved_count + 1,
            best := false,
            stop := stopFlag t.early_stop (not_improved_count + 1) }
    | none =>
        { tr := { t with mnt_mode := Mode.off },
          not_improved_count := not_improved_count + 1, best := false,
          stop := stopFlag t.early_stop (not_improved_count + 1) }

/-- The state threaded through the epoch loop: the trainer attributes,
the loop-local `not_improved_count`, the list of checkpoint records
written so far (in write order), and whether the loop took the
early-stop `break`. -/
structure RunState where
  tr : TrainerState
  not_improved_count : Nat
  saved : List (Checkpoint × String)
  stopped_early : Bool
deriving DecidableEq, Repr

/-- Models lines 93-94 of `_train_process`: `log = {"epoch": epoch}`
followed by `log.update(result)`.  For lookups, the `update` semantics
(the result's entries override the initial `"epoch"` entry) equal the
result list followed by the fallback `("epoch", epoch)` entry, since
`List.lookup` returns the first match. -/
def mergedLog (epoch : Nat) (result : List (String × ℚ)) :
    List (String × ℚ) :=
  result ++ [("epoch", (epoch : ℚ))]

/-- The body of one iteration of `_train_process` after the hook
returned `result` and `self._last_epoch` was already set: merge the
epoch number into the log record (lines 93-94), run the monitoring
block on the merged log (its `log[self.mnt_metric]` lookup reads the
merged record), then the conditional `_save_checkpoint(epoch,
save_best=best, only_best=True)` (skipped when `break` is taken). -/
def epochStep (s : RunState) (epoch : Nat)
    (result : List (String × ℚ)) : RunState :=
  let r := monitorStep s.tr s.not_improved_count (mergedLog epoch result)
  if r.stop then
    { tr := r.tr, not_improved_count := r.not_improved_count,
      saved := s.saved, stopped_early := true }
  else
    { tr := r.tr, not_improved_count := r.not_improved_count,
      saved :=
        if epoch % r.tr.save_period = 0 ∨ r.best = true then
          s.saved ++ [save_checkpoint r.tr epoch r.best true]
        else s.saved,
      stopped_early := s.stopped_early }

/-- Result of the epoch loop: either it ran to its end (normal or
early-stop termination, no exception), or a `KeyboardInterrupt`
escaped from `_train_epoch` with the loop in the given state. -/
inductive Outcome where
  | completed : RunState → Outcome
  | interrupted : RunState → Outcome
deriving DecidableEq, Repr

/-- The run state carried by either outcome. -/
def Outcome.state : Outcome → RunState
  | Outcome.completed s => s
  | Outcome.interrupted s => s

/-- The `for epoch in range(...)` loop of `_train_process` over the
remaining epoch numbers: set `self._last_epoch = epoch`, call the hook
(`none` = `KeyboardInterrupt`), then run the loop body; stop after an
iteration that took the `break`. -/
def trainLoop (hook : Nat → Option (List (String × ℚ))) :
    List Nat → RunState → Outcome
  | [], s => Outcome.completed s
  | e :: rest, s =>
      let sE : RunState := { s with tr := { s.tr with last_epoch := e } }
      match hook e with
      | none => Outcome.interrupted sE
      | some log =>
          let s1 := epochStep sE e log
          if s1.stopped_early then Outcome.completed s1
          else trainLoop hook rest s1

/-- Models `BaseTrainer._train_process`: initialise the local
`not_improved_count = 0` and run the loop over
`range(self.start_epoch, self.epochs + 1)`. -/
def train_process (t : TrainerState)
    (hook : Nat → Option (List (String × ℚ))) : Outcome :=
  trainLoop hook (List.range' t.start_epoch (t.epochs + 1 - t.start_epoch))
    { tr := t, not_improved_count := 0, saved := [], stopped_early := false }

/-- Models `BaseTrainer.train`: run `_train_process`; on `KeyboardInterrupt`
save a checkpoint for `self._last_epoch` with `save_best=False` (and
`only_best` at its default `False`) and re-raise.  The boolean records
whether the interrupt propagated to the caller. -/
def train (t : TrainerState)
    (hook : Nat → Option (List (String × ℚ))) : RunState × Bool :=
  match train_process t hook with
  | Outcome.completed s => (s, false)
  | Outcome.interrupted s =>
      ({ s with
         saved := s.saved ++
           [save_checkpoint s.tr s.tr.last_epoch false false] }, true)

/-- The generator part of `_resume_checkpoint` (lines 191-201): skip
(warning only) when the `g_optimizer` config entry changed; otherwise
load the optimizer state and, when the `g_lr_scheduler` config entry is
*equal*, load the scheduler state (`AttributeError` if no scheduler
attribute exists, `KeyError` if the checkpoint lacks the key). -/
def resume_g (t : TrainerState) (checkpoint : Checkpoint) :
    Except String TrainerState :=
  if checkpoint.config.g_optimizer ≠ t.config.g_optimizer then
    Except.ok t
  else
    let t1 := { t with g_optimizer := checkpoint.g_optimizer }
    if checkpoint.config.g_lr_scheduler = t.config.g_lr_scheduler then
      match t1.g_lr_scheduler, checkpoint.g_lr_scheduler with
      | none, _ => Except.error ("AttributeError: g_lr_scheduler")
      | some _, none => Except.error ("KeyError: g_lr_scheduler")
      | some _, some sd => Except.ok { t1 with g_lr_scheduler := some sd }
    else
      Except.ok t1

/-- The discriminator part of `_resume_checkpoint` (lines 204-214):
skip (warning only) when the `d_optimizer` config entry changed;
otherwise load the optimizer state and, when the `d_lr_scheduler`
config entry is *not equal* (note: the opposite polarity of the
generator branch in the source), load the scheduler state. -/
def resume_d (t : TrainerState) (checkpoint : Checkpoint) :
    Except String TrainerState :=
  if checkpoint.config.d_optimizer ≠ t.config.d_optimizer then
    Except.ok t
  else
    let t1 := { t with d_optimizer := checkpoint.d_optimizer }
    if checkpoint.config.d_lr_scheduler ≠ t.config.d_lr_scheduler then
      match t1.d_lr_scheduler, checkpoint.d_lr_scheduler with
      | none, _ => Except.error ("AttributeError: d_lr_scheduler")
      | some _, none => Except.error ("KeyError: d_lr_scheduler")
      | some _, some sd => Except.ok { t1 with d_lr_scheduler := some sd }
    else
      Except.ok t1

/-- Models `BaseTrainer._resume_checkpoint` on an already deserialized record:
set `start_epoch = epoch + 1` and `mnt_best = monitor_best`, load both
networks' parameter states unconditionally (an architecture config
mismatch only logs a warning), then the two optimizer/scheduler
branches. -/
def resume_checkpoint (t : TrainerState) (checkpoint : Checkpoint) :
    Except String TrainerState :=
  let t2 : TrainerState :=
    { t with
      start_epoch := checkpoint.epoch + 1
      mnt_best := checkpoint.monitor_best
      generator := checkpoint.generator_state_dict
      discriminator := checkpoint.discriminator_state_dict }
  match resume_g t2 checkpoint with
  | Except.error e => Except.error e
  | Except.ok t3 =>
      match resume_d t3 checkpoint with
      | Except.error e => Except.error e
      | Except.ok t4 => Except.ok t4

/-! ### Concrete example states used by the witnesses and
counterexamples -/

def cfg0 : Config :=
  { generator := 0, discriminator := 0, g_optimizer := 0,
    d_optimizer := 0, g_lr_scheduler := 0, d_lr_scheduler := 0 }

def cfg1 : Config :=
  { generator := 1, discriminator := 1, g_optimizer := 1,
    d_optimizer := 1, g_lr_scheduler := 1, d_lr_scheduler := 1 }

/-- A trainer in `"min loss"` monitoring mode, fresh from `__init__`
(`mnt_best = inf`). -/
def tMin : TrainerState :=
  { start_epoch := 1, epochs := 3, save_period := 5,
    mnt_mode := Mode.min, mnt_metric := "loss", mnt_best := XVal.posInf,
    early_stop := none, last_epoch := 0, checkpoint_dir := "saved",
    g_arch := "G", d_arch := "D", generator := 1, discriminator := 2,
    g_optimizer := 3, d_optimizer := 4,
    g_lr_scheduler := none, d_lr_scheduler := none, config := cfg0 }

/-- A trainer with monitoring disabled and `save_period = 2`. -/
def tOff : TrainerState :=
  { tMin with
    mnt_mode := Mode.off
    mnt_best := XVal.fin 0
    save_period := 2 }

/-- A trainer with both schedulers attached, used for the resume
claims. -/
def tRes : TrainerState :=
  { tMin with
    mnt_best := XVal.fin 9
    g_lr_scheduler := some 5
    d_lr_scheduler := some 6 }

/-- An epoch result whose `"loss"` entry is `2.0`. -/
def logTie : List (String × ℚ) := [("loss", 2)]

/-- Feed the same result into the next monitoring step. -/
def tieStep (r : MonitorOutcome) : MonitorOutcome :=
  monitorStep r.tr r.not_improved_count logTie

def tie1 : MonitorOutcome := monitorStep tMin 0 logTie

/-- A hook that never raises and always reports `loss = 2.0`. -/
def hookSome : Nat → Option (List (String × ℚ)) := fun _ => some logTie

/-- A hook that raises `KeyboardInterrupt` during epoch 2. -/
def hookIntr : Nat → Option (List (String × ℚ)) := fun e =>
  if e = 2 then none else some []

/-- The loop state at start of `_train_process` for `tMin`. -/
def sMin : RunState :=
  { tr := tMin, not_improved_count := 0, saved := [], stopped_early := false }

/-- The loop state at start of `_train_process` for `tOff`. -/
def sOff : RunState :=
  { tr := tOff, not_improved_count := 0, saved := [], stopped_early := false }

/-- A trainer monitoring the metric named `"epoch"` in `"min"` mode
(`monitor = "min epoch"`, accepted by the `split()` parsing at line
46). -/
def tEpoch : TrainerState := { tMin with mnt_metric := "epoch" }

/-- The loop state at start of `_train_process` for `tEpoch`. -/
def sEpoch : RunState :=
  { tr := tEpoch, not_improved_count := 0, saved := [],
    stopped_early := false }

/-- The loop state at the moment `hookIntr` raises during epoch 2 of a
run of `tOff` (epoch 1 produced no checkpoint: `1 % 2 ≠ 0`, no best). -/
def sIntr : RunState :=
  { tr := { tOff with last_epoch := 2 }, not_improved_count := 0,
    saved := [], stopped_early := false }

/-- A checkpoint whose recorded config equals `tRes.config` in every
entry, with both scheduler states present. -/
def ckD : Checkpoint :=
  { g_arch := "G", d_arch := "D", epoch := 7,
    generator_state_dict := 11, discriminator_state_dict := 12,
    g_optimizer := 13, d_optimizer := 14,
    g_lr_scheduler := some 15, d_lr_scheduler := some 16,
    monitor_best := XVal.fin 1, config := cfg0 }

/-- What `_resume_checkpoint` actually produces on `tRes` and `ckD`:
everything is restored except the discriminator scheduler state, which
keeps its fresh value because the `!=` test in the source skips it when
the `d_lr_scheduler` configs are equal. -/
def tC4After : TrainerState :=
  { tRes with
    start_epoch := 8
    mnt_best := XVal.fin 1
    generator := 11
    discriminator := 12
    g_optimizer := 13
    d_optimizer := 14
    g_lr_scheduler := some 15 }

/-- A saver trainer whose optimizer config entries all differ from
`tRes.config`, so that resuming from its checkpoint skips both
optimizer branches. -/
def t0W : TrainerState :=
  { tRes with config := cfg1, mnt_best := XVal.fin 7 }

/-- The result of resuming `tRes` from `t0W`'s epoch-3 checkpoint. -/
def tC5After : TrainerState :=
  { tRes with start_epoch := 4, mnt_best := XVal.fin 7 }

/-! ### Helper lemmas -/

/-- Exhaustive case analysis of one monitoring step. -/
lemma monitorStep_cases (t : TrainerState) (n : Nat) (log : List (String × ℚ)) :
    (t.mnt_mode = Mode.off ∧ monitorStep t n log = ⟨t, n, false, false⟩)
    ∨ (t.mnt_mode ≠ Mode.off ∧ ∃ v, log.lookup t.mnt_metric = some v ∧
        ((((t.mnt_mode = Mode.min ∧ qLeX v t.mnt_best = true)
            ∨ (t.mnt_mode = Mode.max ∧ qGeX v t.mnt_best = true))
          ∧ monitorStep t n log =
              ⟨{ t with mnt_best := XVal.fin v }, 0, true, stopFlag t.early_stop 0⟩)
         ∨ (((t.mnt_mode = Mode.min → qLeX v t.mnt_best = false)
             ∧ (t.mnt_mode = Mode.max → qGeX v t.mnt_best = false))
            ∧ monitorStep t n log = ⟨t, n + 1, false, stopFlag t.early_stop (n + 1)⟩)))
    ∨ (t.mnt_mode ≠ Mode.off ∧ log.lookup t.mnt_metric = none ∧
        monitorStep t n log =
          ⟨{ t with mnt_mode := Mode.off }, n + 1, false,
            stopFlag t.early_stop (n + 1)⟩) := by
  by_cases hoff : t.mnt_mode = Mode.off
  · exact Or.inl ⟨hoff, by simp [monitorStep, hoff]⟩
  · cases hlk : log.lookup t.mnt_metric with
    | none =>
        exact Or.inr (Or.inr ⟨hoff, rfl, by simp [monitorStep, hoff, hlk]⟩)
    | some v =>
        refine Or.inr (Or.inl ⟨hoff, v, rfl, ?_⟩)
        cases hm : t.mnt_mode with
        | off => exact absurd hm hoff
        | min =>
            cases him : qLeX v t.mnt_best with
            | true =>
                exact Or.inl ⟨Or.inl ⟨rfl, rfl⟩,
                  by simp [monitorStep, hoff, hlk, hm, him]⟩
            | false =>
                exact Or.inr ⟨⟨fun _ => rfl, fun hmx => nomatch hmx⟩,
                  by simp [monitorStep, hoff, hlk, hm, him]⟩
        | max =>
            cases him : qGeX v t.mnt_best with
            | true =>
                exact Or.inl ⟨Or.inr ⟨rfl, rfl⟩,
                  by simp [monitorStep, hoff, hlk, hm, him]⟩
            | false =>
                exact Or.inr ⟨⟨fun hmn => (nomatch hmn), fun _ => rfl⟩,
                  by simp [monitorStep, hoff, hlk, hm, him]⟩

/-- The trainer attributes after a monitoring step are the old ones with
at most `mnt_best` or `mnt_mode` updated. -/
lemma monitorStep_tr (t : TrainerState) (n : Nat) (log : List (String × ℚ)) :
    (monitorStep t n log).tr = t
    ∨ (∃ v, (monitorStep t n log).tr = { t with mnt_best := XVal.fin v })
    ∨ (monitorStep t n log).tr = { t with mnt_mode := Mode.off } := by
  rcases monitorStep_cases t n log with ⟨_, h⟩ | ⟨_, v, _, ⟨_, h⟩ | ⟨_, h⟩⟩ | ⟨_, _, h⟩
  · exact Or.inl (by rw [h])
  · exact Or.inr (Or.inl ⟨v, by rw [h]⟩)
  · exact Or.inl (by rw [h])
  · exact Or.inr (Or.inr (by rw [h]))

lemma monitorStep_save_period (t : TrainerState) (n : Nat)
    (log : List (String × ℚ)) :
    (monitorStep t n log).tr.save_period = t.save_period := by
  rcases monitorStep_tr t n log with h | ⟨v, h⟩ | h <;> rw [h]

lemma monitorStep_early_stop (t : TrainerState) (n : Nat)
    (log : List (String × ℚ)) :
    (monitorStep t n log).tr.early_stop = t.early_stop := by
  rcases monitorStep_tr t n log with h | ⟨v, h⟩ | h <;> rw [h]

lemma monitorStep_last_epoch (t : TrainerState) (n : Nat)
    (log : List (String × ℚ)) :
    (monitorStep t n log).tr.last_epoch = t.last_epoch := by
  rcases monitorStep_tr t n log with h | ⟨v, h⟩ | h <;> rw [h]

/-- Monitoring is a no-op once the mode is `"off"`. -/
lemma monitorStep_off (t : TrainerState) (n : Nat) (log : List (String × ℚ))
    (h : t.mnt_mode = Mode.off) :
    monitorStep t n log = ⟨t, n, false, false⟩ := by
  simp [monitorStep, h]

/-- With unbounded patience (`early_stop = inf`) the `break` test is
never taken. -/
lemma monitorStep_stop_none (t : TrainerState) (n : Nat)
    (log : List (String × ℚ)) (h : t.early_stop = none) :
    (monitorStep t n log).stop = false := by
  rcases monitorStep_cases t n log with ⟨_, he⟩ | ⟨_, v, _, ⟨_, he⟩ | ⟨_, he⟩⟩ | ⟨_, _, he⟩ <;>
    rw [he] <;> simp [stopFlag, h]

/-! ### Claims -/

/-- Claim C1: with monitoring enabled and the configured metric present
in the epoch result, `"min"` mode counts the epoch as improved iff the
value is `<=` the best so far and `"max"` mode iff it is `>=`; on
improvement the best-so-far ratchets to the new value and the
not-improved counter resets to 0, otherwise the counter is incremented
by 1.  In particular, in `"min"` mode the run of equal values
`[2.0, 2.0, 2.0]` leaves the counter at 0 after each epoch. -/
theorem improvement_policy (t : TrainerState) (n : Nat)
    (log : List (String × ℚ)) (v : ℚ)
    (hmode : t.mnt_mode ≠ Mode.off)
    (hv : log.lookup t.mnt_metric = some v) :
    ((monitorStep t n log).best = true ↔
       ((t.mnt_mode = Mode.min ∧ qLeX v t.mnt_best = true)
        ∨ (t.mnt_mode = Mode.max ∧ qGeX v t.mnt_best = true)))
    ∧ ((monitorStep t n log).best = true →
        (monitorStep t n log).tr.mnt_best = XVal.fin v
          ∧ (monitorStep t n log).not_improved_count = 0)
    ∧ ((monitorStep t n log).best = false →
        (monitorStep t n log).not_improved_count = n + 1
          ∧ (monitorStep t n log).tr.mnt_best = t.mnt_best)
    ∧ (tie1.not_improved_count = 0
        ∧ (tieStep tie1).not_improved_count = 0
        ∧ (tieStep (tieStep tie1)).not_improved_count = 0) := by
  rcases monitorStep_cases t n log with ⟨hoff, _⟩ |
    ⟨_, w, hw, ⟨hcond, heq⟩ | ⟨⟨hmin, hmax⟩, heq⟩⟩ | ⟨_, hn, _⟩
  · exact absurd hoff hmode
  · obtain rfl : w = v := Option.some.inj (hw.symm.trans hv)
    refine ⟨?_, ?_, ?_, by decide⟩ <;> rw [heq]
    · exact ⟨fun _ => hcond, fun _ => rfl⟩
    · exact fun _ => ⟨rfl, rfl⟩
    · intro hfalse; exact absurd hfalse (by simp)
  · obtain rfl : w = v := Option.some.inj (hw.symm.trans hv)
    refine ⟨?_, ?_, ?_, by decide⟩ <;> rw [heq]
    · refine ⟨fun hfalse => absurd hfalse (by simp), fun hcond => ?_⟩
      rcases hcond with ⟨hm, hq⟩ | ⟨hm, hq⟩
      · rw [hmin hm] at hq; exact absurd hq (by simp)
      · rw [hmax hm] at hq; exact absurd hq (by simp)
    · intro htrue; exact absurd htrue (by simp)
    · exact fun _ => ⟨rfl, rfl⟩
  · rw [hv] at hn; cases hn

/-- Witness for C1 at a concrete input: `"min"` mode, best so far
`inf`, value `2.0` — the epoch counts as improved. -/
theorem improvement_policy_witness :
    tMin.mnt_mode ≠ Mode.off
    ∧ logTie.lookup tMin.mnt_metric = some 2
    ∧ (monitorStep tMin 0 logTie).best = true := by
  refine ⟨by decide, by decide, ?_⟩
  exact ((improvement_policy tMin 0 logTie 2 (by decide) (by decide)).1).mpr
    (Or.inl ⟨rfl, by decide⟩)

lemma stopFlag_iff (o : Option Nat) (c : Nat) :
    stopFlag o c = true ↔ ∃ p, o = some p ∧ c > p := by
  cases o <;> simp [stopFlag]

lemma epochStep_early_stop (s : RunState) (ep : Nat)
    (log : List (String × ℚ)) :
    (epochStep s ep log).tr.early_stop = s.tr.early_stop := by
  simp only [epochStep]
  split <;> exact monitorStep_early_stop _ _ _

lemma epochStep_stopped (s : RunState) (ep : Nat)
    (result : List (String × ℚ)) :
    (epochStep s ep result).stopped_early
      = ((monitorStep s.tr s.not_improved_count
            (mergedLog ep result)).stop
          || s.stopped_early) := by
  simp only [epochStep]
  split
  next h => simp [h]
  next h => simp [Bool.not_eq_true] at h; simp [h]

/-- With unbounded patience the loop never takes the early-stop
`break`. -/
lemma trainLoop_no_stop (hook : Nat → Option (List (String × ℚ)))
    (es : List Nat) :
    ∀ s : RunState, s.tr.early_stop = none → s.stopped_early = false →
      (trainLoop hook es s).state.stopped_early = false := by
  induction es with
  | nil => intro s _ hse; simpa [trainLoop, Outcome.state] using hse
  | cons e rest ih =>
      intro s hes hse
      simp only [trainLoop]
      split
      next => simpa [Outcome.state] using hse
      next log heq =>
        split
        next hst =>
          exfalso
          rw [epochStep_stopped, monitorStep_stop_none, Bool.false_or]
            at hst
          · simp only [] at hst; simp [hse] at hst
          · exact hes
        next hst =>
          rw [Bool.not_eq_true] at hst
          exact ih _ ((epochStep_early_stop _ _ _).trans hes) hst

/-- If the loop body takes the `break`, the loop returns normally
(completed, no exception) with that body's state. -/
lemma trainLoop_break (hook : Nat → Option (List (String × ℚ)))
    (e : Nat) (rest : List Nat) (s : RunState) (log : List (String × ℚ))
    (hhk : hook e = some log)
    (hst : (epochStep { s with tr := { s.tr with last_epoch := e } } e
        log).stopped_early = true) :
    trainLoop hook (e :: rest) s =
      Outcome.completed
        (epochStep { s with tr := { s.tr with last_epoch := e } } e log) := by
  simp only [trainLoop, hhk]
  split
  next => rfl
  next h => exact absurd hst h

lemma epochStep_mode_off (s : RunState) (ep : Nat)
    (log : List (String × ℚ)) (h : s.tr.mnt_mode = Mode.off) :
    (epochStep s ep log).tr.mnt_mode = Mode.off := by
  simp only [epochStep]
  split <;> rw [monitorStep_off _ _ _ h] <;> exact h

/-- Once the mode is `"off"` it stays `"off"` for the rest of the
run. -/
lemma trainLoop_mode_off (hook : Nat → Option (List (String × ℚ)))
    (es : List Nat) :
    ∀ s : RunState, s.tr.mnt_mode = Mode.off →
      (trainLoop hook es s).state.tr.mnt_mode = Mode.off := by
  induction es with
  | nil => intro s h; simpa [trainLoop, Outcome.state] using h
  | cons e rest ih =>
      intro s h
      simp only [trainLoop]
      split
      next => simpa [Outcome.state] using h
      next log heq =>
        split
        next hst =>
          simp only [Outcome.state]
          exact epochStep_mode_off _ _ _ h
        next hst =>
          exact ih _ (epochStep_mode_off _ _ _ h)

/-- Claim C2: the loop takes the early-stop `break` (a normal, logged
termination, not an exception) exactly when the not-improved counter
strictly exceeds the configured patience, and a configured patience
`<= 0` is normalised to unbounded, so early stopping never fires. -/
theorem early_stop_policy (e : Int) (t : TrainerState) (n ep : Nat)
    (log : List (String × ℚ)) (hook : Nat → Option (List (String × ℚ)))
    (rest es : List Nat) (s2 s : RunState)
    (he : e ≤ 0) (hmode : t.mnt_mode ≠ Mode.off)
    (hhk : hook ep = some log)
    (hes : s.tr.early_stop = none) (hse : s.stopped_early = false) :
    normEarlyStop (some e) = none
    ∧ ((monitorStep t n log).stop = true ↔
        ∃ p, t.early_stop = some p
          ∧ (monitorStep t n log).not_improved_count > p)
    ∧ ((epochStep s2 ep log).stopped_early
        = ((monitorStep s2.tr s2.not_improved_count
              (mergedLog ep log)).stop
            || s2.stopped_early))
    ∧ ((epochStep { s2 with tr := { s2.tr with last_epoch := ep } } ep
          log).stopped_early = true →
        trainLoop hook (ep :: rest) s2
          = Outcome.completed
              (epochStep { s2 with tr := { s2.tr with last_epoch := ep } }
                ep log))
    ∧ (trainLoop hook es s).state.stopped_early = false := by
  refine ⟨by simp [normEarlyStop, he], ?_, epochStep_stopped s2 ep log,
    fun hst => trainLoop_break hook ep rest s2 log hhk hst,
    trainLoop_no_stop hook es s hes hse⟩
  rcases monitorStep_cases t n log with ⟨hoff, _⟩ |
    ⟨_, v, _, ⟨_, heq⟩ | ⟨_, heq⟩⟩ | ⟨_, _, heq⟩
  · exact absurd hoff hmode
  · rw [heq]; exact stopFlag_iff t.early_stop 0
  · rw [heq]; exact stopFlag_iff t.early_stop (n + 1)
  · rw [heq]; exact stopFlag_iff t.early_stop (n + 1)

/-- Witness for C2 at concrete inputs: patience `-3` normalises to
unbounded, and a three-epoch run with unbounded patience never stops
early. -/
theorem early_stop_policy_witness :
    (-3 : Int) ≤ 0
    ∧ tMin.mnt_mode ≠ Mode.off
    ∧ hookSome 1 = some logTie
    ∧ sMin.tr.early_stop = none
    ∧ sMin.stopped_early = false
    ∧ normEarlyStop (some (-3)) = none
    ∧ (trainLoop hookSome [1, 2, 3] sMin).state.stopped_early = false := by
  have h := early_stop_policy (-3) tMin 0 1 logTie hookSome [] [1, 2, 3]
    sMin sMin (by decide) (by decide) rfl rfl rfl
  exact ⟨by decide, by decide, rfl, rfl, rfl, h.1, h.2.2.2.2⟩

/-- Lookup in the merged log falls through to the `("epoch", epoch)`
fallback only for the key `"epoch"`: any other key that is absent from
the EpochResult is also absent from the merged log. -/
lemma mergedLog_lookup_none (ep : Nat) (result : List (String × ℚ))
    (m : String) (hmiss : result.lookup m = none) (hne : m ≠ "epoch") :
    (mergedLog ep result).lookup m = none := by
  unfold mergedLog
  induction result with
  | nil =>
      have hb : (m == "epoch") = false := beq_false_of_ne hne
      simp [List.lookup_cons, hb]
  | cons p rest ih =>
      obtain ⟨k, v⟩ := p
      rw [List.lookup_cons] at hmiss
      rw [List.cons_append, List.lookup_cons]
      cases hk : (m == k) with
      | true => simp [hk] at hmiss
      | false =>
          simp only [hk] at hmiss ⊢
          exact ih hmiss

/-- Counterexample to claim C3 as stated: with configured metric name
`"epoch"` (monitor spec `"min epoch"`, accepted by the parsing at line
46), an epoch whose EpochResult lacks the metric does not disable
monitoring — the lookup at line 108 reads the log merged at lines
93-94, which always contains the `"epoch"` key, so no `KeyError` is
raised; here the epoch even counts as improved and the mode stays
`"min"`, with the counter at 0 rather than incremented. -/
theorem missing_metric_epoch_cex :
    tEpoch.mnt_mode = Mode.min
    ∧ ([] : List (String × ℚ)).lookup tEpoch.mnt_metric = none
    ∧ (epochStep sEpoch 1 []).tr.mnt_mode = Mode.min
    ∧ (epochStep sEpoch 1 []).not_improved_count = 0
    ∧ (monitorStep tEpoch 0 (mergedLog 1 [])).best = true := by
  refine ⟨rfl, rfl, ?_, ?_, ?_⟩ <;> decide

/-- Claim C3 (amended): when monitoring is enabled and the configured
metric name is any name other than `"epoch"`, an epoch whose
EpochResult lacks that name also lacks it in the merged log, so that
epoch is treated as not improved (counter incremented, `best` stays
false) and the mode becomes `"off"`; mode `"off"` makes the monitoring
block a no-op on any later result (even one containing the metric) and
stays `"off"` for the remainder of the loop.  (With the metric name
`"epoch"` the merged log always contains the key and the missing-key
path never triggers.) -/
theorem missing_metric_policy (t t2 : TrainerState) (n n2 ep : Nat)
    (result log2 : List (String × ℚ))
    (hook : Nat → Option (List (String × ℚ))) (es : List Nat)
    (s : RunState)
    (hmode : t.mnt_mode ≠ Mode.off)
    (hne : t.mnt_metric ≠ "epoch")
    (hmiss : result.lookup t.mnt_metric = none)
    (hoff : t2.mnt_mode = Mode.off)
    (hsoff : s.tr.mnt_mode = Mode.off) :
    ((mergedLog ep result).lookup t.mnt_metric = none
      ∧ (monitorStep t n (mergedLog ep result)).tr.mnt_mode = Mode.off
      ∧ (monitorStep t n (mergedLog ep result)).best = false
      ∧ (monitorStep t n (mergedLog ep result)).not_improved_count
          = n + 1)
    ∧ monitorStep t2 n2 log2 = ⟨t2, n2, false, false⟩
    ∧ (trainLoop hook es s).state.tr.mnt_mode = Mode.off := by
  have hm : (mergedLog ep result).lookup t.mnt_metric = none :=
    mergedLog_lookup_none ep result t.mnt_metric hmiss hne
  refine ⟨⟨hm, ?_⟩, monitorStep_off t2 n2 log2 hoff,
    trainLoop_mode_off hook es s hsoff⟩
  rcases monitorStep_cases t n (mergedLog ep result) with ⟨hoff1, _⟩ |
    ⟨_, v, hv, _⟩ | ⟨_, _, heq⟩
  · exact absurd hoff1 hmode
  · rw [hm] at hv; cases hv
  · rw [heq]; exact ⟨rfl, rfl, rfl⟩

/-- Witness for the amended C3: in `"min loss"` mode (a metric name
other than `"epoch"`) an epoch result without a `"loss"` entry
disables monitoring and counts as not improved. -/
theorem missing_metric_policy_witness :
    tMin.mnt_mode ≠ Mode.off
    ∧ tMin.mnt_metric ≠ "epoch"
    ∧ List.lookup tMin.mnt_metric ([] : List (String × ℚ)) = none
    ∧ tOff.mnt_mode = Mode.off
    ∧ sOff.tr.mnt_mode = Mode.off
    ∧ (monitorStep tMin 0 (mergedLog 1 [])).tr.mnt_mode = Mode.off
    ∧ (monitorStep tMin 0 (mergedLog 1 [])).not_improved_count = 1
    ∧ (trainLoop hookSome [1, 2] sOff).state.tr.mnt_mode = Mode.off := by
  have h := missing_metric_policy tMin tOff 0 0 1 [] logTie hookSome
    [1, 2] sOff (by decide) (by decide) rfl rfl rfl
  exact ⟨by decide, by decide, rfl, rfl, rfl, h.1.2.1, h.1.2.2.2, h.2.2⟩

/-- Claim C7: for an epoch that completes without taking the early-stop
`break`, a checkpoint is appended exactly when the epoch number is
divisible by the save period or the epoch was marked best; with
monitoring `"off"` the best flag is always false, so the save happens
exactly at epochs divisible by the save period. -/
theorem save_policy (s : RunState) (ep : Nat)
    (result : List (String × ℚ))
    (hstop : (monitorStep s.tr s.not_improved_count
        (mergedLog ep result)).stop = false) :
    ((epochStep s ep result).saved =
      if ep % s.tr.save_period = 0
          ∨ (monitorStep s.tr s.not_improved_count
              (mergedLog ep result)).best = true then
        s.saved ++ [save_checkpoint
          (monitorStep s.tr s.not_improved_count (mergedLog ep result)).tr
          ep
          (monitorStep s.tr s.not_improved_count
            (mergedLog ep result)).best true]
      else s.saved)
    ∧ (s.tr.mnt_mode = Mode.off →
        (monitorStep s.tr s.not_improved_count
          (mergedLog ep result)).best = false) := by
  constructor
  · simp only [epochStep]
    split
    next h => rw [h] at hstop; cases hstop
    next h => rw [monitorStep_save_period]
  · intro hoff; rw [monitorStep_off _ _ _ hoff]

/-- Witness for C7: with monitoring off and `save_period = 2`, epoch 2
appends exactly its own checkpoint. -/
theorem save_policy_witness :
    (monitorStep sOff.tr sOff.not_improved_count
        (mergedLog 2 [])).stop = false
    ∧ (epochStep sOff 2 []).saved =
        [save_checkpoint
          (monitorStep sOff.tr sOff.not_improved_count (mergedLog 2 [])).tr
          2
          (monitorStep sOff.tr sOff.not_improved_count
            (mergedLog 2 [])).best true]
    ∧ (monitorStep sOff.tr sOff.not_improved_count
        (mergedLog 2 [])).best = false := by
  have h := save_policy sOff 2 [] (by decide)
  refine ⟨by decide, ?_, h.2 rfl⟩
  rw [h.1]
  decide

/-- Claim C9: the checkpoint-persistence operation ignores the
`save_best` and `only_best` flags entirely — for any trainer state and
epoch it produces the same record and writes it to the same path, which
is a function of the checkpoint directory and the epoch number only
(pattern `checkpoint-epoch<N>.pth`); no distinct best artifact is ever
produced. -/
theorem save_flags_unused (t : TrainerState) (ep : Nat)
    (b1 o1 b2 o2 : Bool) :
    save_checkpoint t ep b1 o1 = save_checkpoint t ep b2 o2
    ∧ (save_checkpoint t ep b1 o1).2
        = t.checkpoint_dir ++ "/checkpoint-epoch" ++ toString ep ++ ".pth" :=
  ⟨rfl, rfl⟩

/-- Claim C10: the not-improved counter is loop-local: the emergency
checkpoint written on interrupt does not depend on it, the trainer
attributes produced by a monitoring step do not depend on it, and every
run of `_train_process` (fresh or resumed, whatever `TrainerState` it
starts from) begins the loop with the counter at 0. -/
theorem not_improved_count_frame (s : RunState) (n ep : Nat)
    (t : TrainerState) (m : Nat) (log : List (String × ℚ))
    (hook : Nat → Option (List (String × ℚ))) :
    save_checkpoint { s with not_improved_count := n }.tr ep false false
      = save_checkpoint s.tr ep false false
    ∧ (monitorStep t n log).tr = (monitorStep t m log).tr
    ∧ (monitorStep t n log).best = (monitorStep t m log).best
    ∧ train_process t hook
        = trainLoop hook
            (List.range' t.start_epoch (t.epochs + 1 - t.start_epoch))
            { tr := t, not_improved_count := 0, saved := [],
              stopped_early := false } := by
  refine ⟨rfl, ?_, ?_, rfl⟩ <;>
  · unfold monitorStep
    split
    · rfl
    · split
      · simp only []
        split <;> rfl
      · rfl

/-- Characterisation of a successful generator branch of
`_resume_checkpoint`: every field other than `g_optimizer` and
`g_lr_scheduler` is untouched, and those two are loaded under exactly
the conditions the source tests. -/
lemma resume_g_ok (t : TrainerState) (ck : Checkpoint) (t' : TrainerState)
    (h : resume_g t ck = Except.ok t') :
    (t'.start_epoch = t.start_epoch ∧ t'.epochs = t.epochs
      ∧ t'.save_period = t.save_period ∧ t'.mnt_mode = t.mnt_mode
      ∧ t'.mnt_metric = t.mnt_metric ∧ t'.mnt_best = t.mnt_best
      ∧ t'.early_stop = t.early_stop ∧ t'.last_epoch = t.last_epoch
      ∧ t'.checkpoint_dir = t.checkpoint_dir ∧ t'.g_arch = t.g_arch
      ∧ t'.d_arch = t.d_arch ∧ t'.generator = t.generator
      ∧ t'.discriminator = t.discriminator
      ∧ t'.d_optimizer = t.d_optimizer
      ∧ t'.d_lr_scheduler = t.d_lr_scheduler ∧ t'.config = t.config)
    ∧ (ck.config.g_optimizer ≠ t.config.g_optimizer → t' = t)
    ∧ (ck.config.g_optimizer = t.config.g_optimizer →
        t'.g_optimizer = ck.g_optimizer
        ∧ (ck.config.g_lr_scheduler = t.config.g_lr_scheduler →
            t'.g_lr_scheduler = ck.g_lr_scheduler)
        ∧ (ck.config.g_lr_scheduler ≠ t.config.g_lr_scheduler →
            t'.g_lr_scheduler = t.g_lr_scheduler)) := by
  simp only [resume_g] at h
  split at h
  next hne =>
    injection h with h; subst h
    exact ⟨⟨rfl, rfl, rfl, rfl, rfl, rfl, rfl, rfl, rfl, rfl, rfl, rfl,
      rfl, rfl, rfl, rfl⟩, fun _ => rfl, fun heq => absurd heq hne⟩
  next hne =>
    rw [not_not] at hne
    split at h
    next hsc =>
      split at h
      · cases h
      · cases h
      next old sd hold hck =>
        injection h with h; subst h
        exact ⟨⟨rfl, rfl, rfl, rfl, rfl, rfl, rfl, rfl, rfl, rfl, rfl,
          rfl, rfl, rfl, rfl, rfl⟩,
          fun hno => absurd hne hno,
          fun _ => ⟨rfl, fun _ => hck.symm, fun hno => absurd hsc hno⟩⟩
    next hsc =>
      injection h with h; subst h
      exact ⟨⟨rfl, rfl, rfl, rfl, rfl, rfl, rfl, rfl, rfl, rfl, rfl, rfl,
        rfl, rfl, rfl, rfl⟩,
        fun hno => absurd hne hno,
        fun _ => ⟨rfl, fun hyes => absurd hyes hsc, fun _ => rfl⟩⟩

/-- Characterisation of a successful discriminator branch of
`_resume_checkpoint`: note the scheduler is loaded when the
`d_lr_scheduler` configs are *unequal* (the `!=` in the source). -/
lemma resume_d_ok (t : TrainerState) (ck : Checkpoint) (t' : TrainerState)
    (h : resume_d t ck = Except.ok t') :
    (t'.start_epoch = t.start_epoch ∧ t'.epochs = t.epochs
      ∧ t'.save_period = t.save_period ∧ t'.mnt_mode = t.mnt_mode
      ∧ t'.mnt_metric = t.mnt_metric ∧ t'.mnt_best = t.mnt_best
      ∧ t'.early_stop = t.early_stop ∧ t'.last_epoch = t.last_epoch
      ∧ t'.checkpoint_dir = t.checkpoint_dir ∧ t'.g_arch = t.g_arch
      ∧ t'.d_arch = t.d_arch ∧ t'.generator = t.generator
      ∧ t'.discriminator = t.discriminator
      ∧ t'.g_optimizer = t.g_optimizer
      ∧ t'.g_lr_scheduler = t.g_lr_scheduler ∧ t'.config = t.config)
    ∧ (ck.config.d_optimizer ≠ t.config.d_optimizer → t' = t)
    ∧ (ck.config.d_optimizer = t.config.d_optimizer →
        t'.d_optimizer = ck.d_optimizer
        ∧ (ck.config.d_lr_scheduler ≠ t.config.d_lr_scheduler →
            t'.d_lr_scheduler = ck.d_lr_scheduler)
        ∧ (ck.config.d_lr_scheduler = t.config.d_lr_scheduler →
            t'.d_lr_scheduler = t.d_lr_scheduler)) := by
  simp only [resume_d] at h
  split at h
  next hne =>
    injection h with h; subst h
    exact ⟨⟨rfl, rfl, rfl, rfl, rfl, rfl, rfl, rfl, rfl, rfl, rfl, rfl,
      rfl, rfl, rfl, rfl⟩, fun _ => rfl, fun heq => absurd heq hne⟩
  next hne =>
    rw [not_not] at hne
    split at h
    next hsc =>
      split at h
      · cases h
      · cases h
      next old sd hold hck =>
        injection h with h; subst h
        exact ⟨⟨rfl, rfl, rfl, rfl, rfl, rfl, rfl, rfl, rfl, rfl, rfl,
          rfl, rfl, rfl, rfl, rfl⟩,
          fun hno => absurd hne hno,
          fun _ => ⟨rfl, fun _ => hck.symm, fun hyes => absurd hyes hsc⟩⟩
    next hsc =>
      rw [not_not] at hsc
      injection h with h; subst h
      exact ⟨⟨rfl, rfl, rfl, rfl, rfl, rfl, rfl, rfl, rfl, rfl, rfl, rfl,
        rfl, rfl, rfl, rfl⟩,
        fun hno => absurd hne hno,
        fun _ => ⟨rfl, fun hno => absurd hsc hno, fun _ => rfl⟩⟩

/-- A successful `_resume_checkpoint` factors into the base updates,
a successful generator branch and a successful discriminator branch. -/
lemma resume_checkpoint_ok (t : TrainerState) (ck : Checkpoint)
    (t' : TrainerState) (h : resume_checkpoint t ck = Except.ok t') :
    ∃ t3, resume_g
        { t with
          start_epoch := ck.epoch + 1
          mnt_best := ck.monitor_best
          generator := ck.generator_state_dict
          discriminator := ck.discriminator_state_dict } ck
        = Except.ok t3
      ∧ resume_d t3 ck = Except.ok t' := by
  simp only [resume_checkpoint] at h
  split at h
  · cases h
  next t3 heq3 =>
    split at h
    · cases h
    next t4 heq4 =>
      injection h with h; subst h
      exact ⟨t3, heq3, heq4⟩

/-- Counterexample to claim C4 as stated: on `tRes` and `ckD` the
discriminator scheduler is attached and its config entry is unchanged,
yet resume keeps the freshly constructed scheduler state (`some 6`)
instead of the checkpointed one (`some 16`), because the source tests
`!=` rather than `==` in the discriminator branch. -/
theorem sched_resume_asymmetry_cex :
    resume_checkpoint tRes ckD = Except.ok tC4After
    ∧ ckD.config.d_lr_scheduler = tRes.config.d_lr_scheduler
    ∧ tRes.d_lr_scheduler = some 6
    ∧ ckD.d_lr_scheduler = some 16
    ∧ tC4After.d_lr_scheduler = some 6
    ∧ ¬ tC4After.d_lr_scheduler = ckD.d_lr_scheduler := by
  refine ⟨rfl, rfl, rfl, rfl, rfl, by decide⟩

/-- Claim C4 (amended): on a successful resume, the generator scheduler
state is restored iff both the `g_optimizer` and the `g_lr_scheduler`
config entries are unchanged, while the discriminator scheduler state
is restored iff the `d_optimizer` entry is unchanged AND the
`d_lr_scheduler` entry is *changed*; in all other cases the scheduler
keeps its freshly constructed state. -/
theorem sched_resume_policy (t : TrainerState) (ck : Checkpoint)
    (t' : TrainerState) (h : resume_checkpoint t ck = Except.ok t') :
    ((ck.config.g_optimizer = t.config.g_optimizer
        ∧ ck.config.g_lr_scheduler = t.config.g_lr_scheduler) →
      t'.g_lr_scheduler = ck.g_lr_scheduler)
    ∧ (¬(ck.config.g_optimizer = t.config.g_optimizer
          ∧ ck.config.g_lr_scheduler = t.config.g_lr_scheduler) →
      t'.g_lr_scheduler = t.g_lr_scheduler)
    ∧ ((ck.config.d_optimizer = t.config.d_optimizer
        ∧ ck.config.d_lr_scheduler ≠ t.config.d_lr_scheduler) →
      t'.d_lr_scheduler = ck.d_lr_scheduler)
    ∧ (¬(ck.config.d_optimizer = t.config.d_optimizer
          ∧ ck.config.d_lr_scheduler ≠ t.config.d_lr_scheduler) →
      t'.d_lr_scheduler = t.d_lr_scheduler) := by
  obtain ⟨t3, h3, h4⟩ := resume_checkpoint_ok t ck t' h
  obtain ⟨⟨-, -, -, -, -, -, -, -, -, -, -, -, -, -, hGd, hGc⟩,
    hGne, hGeq⟩ := resume_g_ok _ ck t3 h3
  obtain ⟨⟨-, -, -, -, -, -, -, -, -, -, -, -, -, -, hDg, -⟩,
    hDne, hDeq⟩ := resume_d_ok t3 ck t' h4
  rw [hGc] at hDne hDeq
  refine ⟨?_, ?_, ?_, ?_⟩
  · rintro ⟨hopt, hsc⟩
    exact hDg.trans ((hGeq hopt).2.1 hsc)
  · intro hno
    by_cases hopt : ck.config.g_optimizer = t.config.g_optimizer
    · have hsc : ck.config.g_lr_scheduler ≠ t.config.g_lr_scheduler :=
        fun hsc => hno ⟨hopt, hsc⟩
      exact hDg.trans ((hGeq hopt).2.2 hsc)
    · rw [hDg, hGne hopt]
  · rintro ⟨hopt, hsc⟩
    exact (hDeq hopt).2.1 hsc
  · intro hno
    by_cases hopt : ck.config.d_optimizer = t.config.d_optimizer
    · have hsc : ck.config.d_lr_scheduler = t.config.d_lr_scheduler := by
        by_contra hne
        exact hno ⟨hopt, hne⟩
      rw [(hDeq hopt).2.2 hsc]
      exact hGd
    · rw [hDne hopt]
      exact hGd

/-- Witness for the amended C4: on the concrete resume of `tRes` from
`ckD` the generator scheduler is restored and the discriminator
scheduler keeps its fresh state. -/
theorem sched_resume_policy_witness :
    resume_checkpoint tRes ckD = Except.ok tC4After
    ∧ tC4After.g_lr_scheduler = ckD.g_lr_scheduler
    ∧ tC4After.d_lr_scheduler = tRes.d_lr_scheduler := by
  have hres : resume_checkpoint tRes ckD = Except.ok tC4After := rfl
  have h := sched_resume_policy tRes ckD tC4After hres
  exact ⟨hres, h.1 ⟨rfl, rfl⟩, h.2.2.2 (fun hc => hc.2 rfl)⟩

/-- Claim C5: resuming from a checkpoint recorded at epoch `N ≥ 1` sets
`start_epoch` to `N + 1` and restores the best-metric value verbatim
from the record, regardless of the value held before the resume. -/
theorem resume_restores_epoch_and_best (t0 t t' : TrainerState) (N : Nat)
    (b o : Bool) (hN : 1 ≤ N)
    (h : resume_checkpoint t (save_checkpoint t0 N b o).1 = Except.ok t') :
    t'.start_epoch = N + 1 ∧ t'.mnt_best = t0.mnt_best := by
  obtain ⟨t3, h3, h4⟩ := resume_checkpoint_ok t _ t' h
  obtain ⟨⟨hse3, -, -, -, -, hmb3, -⟩, -, -⟩ := resume_g_ok _ _ t3 h3
  obtain ⟨⟨hse4, -, -, -, -, hmb4, -⟩, -, -⟩ := resume_d_ok t3 _ t' h4
  exact ⟨hse4.trans hse3, hmb4.trans hmb3⟩

/-- Witness for C5: resuming `tRes` from `t0W`'s epoch-3 checkpoint
yields `start_epoch = 4` and `mnt_best = t0W.mnt_best`. -/
theorem resume_restores_epoch_and_best_witness :
    1 ≤ 3
    ∧ resume_checkpoint tRes (save_checkpoint t0W 3 true false).1
        = Except.ok tC5After
    ∧ tC5After.start_epoch = 3 + 1
    ∧ tC5After.mnt_best = t0W.mnt_best := by
  have hres : resume_checkpoint tRes (save_checkpoint t0W 3 true false).1
      = Except.ok tC5After := rfl
  have h := resume_restores_epoch_and_best t0W tRes tC5After 3 true false
    (by decide) hres
  exact ⟨by decide, hres, h.1, h.2⟩

/-- Claim C6: on a successful resume, a network whose optimizer config
entry differs from the recorded one keeps its freshly constructed
optimizer state, while both networks' parameter states are restored
from the checkpoint unconditionally. -/
theorem optimizer_mismatch_keeps_fresh (t t' : TrainerState)
    (ck : Checkpoint) (h : resume_checkpoint t ck = Except.ok t') :
    (ck.config.g_optimizer ≠ t.config.g_optimizer →
      t'.g_optimizer = t.g_optimizer)
    ∧ (ck.config.d_optimizer ≠ t.config.d_optimizer →
      t'.d_optimizer = t.d_optimizer)
    ∧ t'.generator = ck.generator_state_dict
    ∧ t'.discriminator = ck.discriminator_state_dict := by
  obtain ⟨t3, h3, h4⟩ := resume_checkpoint_ok t ck t' h
  obtain ⟨⟨-, -, -, -, -, -, -, -, -, -, -, hGgen, hGdisc, hGdopt, -,
    hGc⟩, hGne, hGeq⟩ := resume_g_ok _ ck t3 h3
  obtain ⟨⟨-, -, -, -, -, -, -, -, -, -, -, hDgen, hDdisc, hDgopt, -,
    -⟩, hDne, hDeq⟩ := resume_d_ok t3 ck t' h4
  rw [hGc] at hDne hDeq
  refine ⟨?_, ?_, hDgen.trans hGgen, hDdisc.trans hGdisc⟩
  · intro hne
    rw [hDgopt, hGne hne]
  · intro hne
    rw [hDne hne]
    exact hGdopt

/-- Witness for C6: resuming `tRes` from `t0W`'s checkpoint (all
optimizer config entries differ) keeps both fresh optimizer states and
still restores the parameters. -/
theorem optimizer_mismatch_keeps_fresh_witness :
    (save_checkpoint t0W 3 true false).1.config.g_optimizer
        ≠ tRes.config.g_optimizer
    ∧ resume_checkpoint tRes (save_checkpoint t0W 3 true false).1
        = Except.ok tC5After
    ∧ tC5After.g_optimizer = tRes.g_optimizer
    ∧ tC5After.generator
        = (save_checkpoint t0W 3 true false).1.generator_state_dict := by
  have hres : resume_checkpoint tRes (save_checkpoint t0W 3 true false).1
      = Except.ok tC5After := rfl
  have h := optimizer_mismatch_keeps_fresh tRes tC5After _ hres
  exact ⟨by decide, hres, h.1 (by decide), h.2.2.1⟩

/-- A loop iteration only ever appends checkpoints for its own epoch
number. -/
lemma epochStep_saved_sub (s : RunState) (ep : Nat)
    (log : List (String × ℚ)) :
    ∀ p ∈ (epochStep s ep log).saved, p ∈ s.saved ∨ p.1.epoch = ep := by
  intro p hp
  simp only [epochStep] at hp
  split at hp
  · exact Or.inl hp
  · split at hp
    · rcases List.mem_append.mp hp with h | h
      · exact Or.inl h
      · rcases List.mem_singleton.mp h with rfl
        exact Or.inr rfl
    · exact Or.inl hp

/-- If an interrupt escapes the loop, every checkpoint written so far
belongs to an epoch strictly before the interrupted one. -/
lemma trainLoop_interrupted_bound (hook : Nat → Option (List (String × ℚ))) :
    ∀ (len start : Nat) (s : RunState),
      (∀ p ∈ s.saved, p.1.epoch < start) →
      ∀ s', trainLoop hook (List.range' start len) s
          = Outcome.interrupted s' →
        ∀ p ∈ s'.saved, p.1.epoch < s'.tr.last_epoch := by
  intro len
  induction len with
  | zero =>
      intro start s hb s' hrun
      simp [List.range'_zero, trainLoop] at hrun
  | succ k ih =>
      intro start s hb s' hrun
      rw [List.range'_succ] at hrun
      simp only [trainLoop] at hrun
      split at hrun
      next heq =>
        injection hrun with hrun; subst hrun
        intro p hp
        exact hb p hp
      next log heq =>
        split at hrun
        · cases hrun
        next hst =>
          refine ih (start + 1) _ ?_ s' hrun
          intro p hp
          rcases epochStep_saved_sub _ _ _ p hp with h | h
          · exact Nat.lt_succ_of_lt (hb p h)
          · rw [h]; exact Nat.lt_succ_self start

/-- Claim C8: when a `KeyboardInterrupt` escapes the loop, `train`
appends exactly one checkpoint, for the most recently recorded epoch
(`self._last_epoch`), saved with `save_best=False`, and re-raises the
interrupt (the boolean in the result); the interrupted epoch had no
checkpoint yet, so the final history contains exactly one record for
it, regardless of the save period. -/
theorem interrupt_checkpoint (t : TrainerState)
    (hook : Nat → Option (List (String × ℚ))) (s' : RunState)
    (h : train_process t hook = Outcome.interrupted s') :
    train t hook
      = ({ s' with saved := s'.saved
            ++ [save_checkpoint s'.tr s'.tr.last_epoch false false] }, true)
    ∧ List.countP (fun p => p.1.epoch == s'.tr.last_epoch)
        (train t hook).1.saved = 1 := by
  have hb : ∀ p ∈ s'.saved, p.1.epoch < s'.tr.last_epoch := by
    refine trainLoop_interrupted_bound hook (t.epochs + 1 - t.start_epoch)
      t.start_epoch _ ?_ s' h
    intro p hp
    simp at hp
  have htr : train t hook
      = ({ s' with saved := s'.saved
            ++ [save_checkpoint s'.tr s'.tr.last_epoch false false] },
          true) := by
    unfold train
    rw [h]
  refine ⟨htr, ?_⟩
  rw [htr]
  simp only []
  rw [List.countP_append]
  have h0 : List.countP (fun p => p.1.epoch == s'.tr.last_epoch)
      s'.saved = 0 := by
    refine List.countP_eq_zero.mpr ?_
    intro p hp
    simp only [beq_iff_eq]
    exact Nat.ne_of_lt (hb p hp)
  rw [h0]
  simp [save_checkpoint]

/-- Witness for C8: `hookIntr` raises during epoch 2 of a 3-epoch run;
the emergency save produces the single epoch-2 checkpoint and the
interrupt propagates. -/
theorem interrupt_checkpoint_witness :
    train_process tOff hookIntr = Outcome.interrupted sIntr
    ∧ train tOff hookIntr
        = ({ sIntr with
            saved := [save_checkpoint sIntr.tr 2 false false] }, true)
    ∧ List.countP (fun p => p.1.epoch == 2)
        (train tOff hookIntr).1.saved = 1 := by
  have hp : train_process tOff hookIntr = Outcome.interrupted sIntr := by
    decide
  have h := interrupt_checkpoint tOff hookIntr sIntr hp
  exact ⟨hp, h.1, h.2⟩
